import Mathlib

/-!
# Verification of the DataRoom upload/listing component

Shallow embedding of `src/components/DataRoom.tsx`: the state held by the
component, the `loadFiles` listing routine, the per-file upload pipeline of
`handleFileSelect` (path synthesis, progress callback, per-task completion and
failure marking, `Promise.all` aggregation and its completion effects), the
folder-scope selector, and the `formatFileSize` helper.

Modelling conventions:
* JavaScript numbers that only ever hold byte counts, indices or timestamps are
  modelled as `Nat`.
* The external store and the identity provider are parameters: the identity
  token is an `Option String` (`none` = not authenticated) and the store is a
  function from a listing path to `Except` (its error type is opaque, so a
  `String`).
* `Math.round(x)` for nonnegative `x` is `⌊x + 1/2⌋`; on the rational
  `100 * t / T` this is `(200 * t + T) / (2 * T)` in integer division, which is
  how it is written here (exact rational arithmetic stands in for IEEE doubles).
* Concurrency: the uploads are issued fan-out and settle in an arbitrary
  order.  A schedule is the list of task indices in the order in which their
  promises settle; the React state updates are folded over that list.
  `Promise.all` settles at the first rejection (or after the last resolution),
  which is the prefix of the schedule computed by `firstFailureSettles`.
-/

namespace DataRoom

/-- `FileItem` record from the source (a listing entry). -/
structure FileItem where
  path : String
  size : Option Nat
  lastModified : Option Nat
  eTag : Option String
deriving DecidableEq, Repr

/-- `UploadProgress` record from the source (one per task in a batch). -/
structure UploadProgress where
  fileName : String
  progress : Nat
  isUploading : Bool
deriving DecidableEq, Repr

/-- The React state of the `DataRoom` component. -/
structure DataRoomState where
  files : List FileItem
  uploadProgress : List UploadProgress
  loading : Bool
  error : Option String
  selectedFolder : String
deriving DecidableEq, Repr

/-- The `path` callback passed to `list` in `loadFiles`: throws
`'User not authenticated'` when the identity id is unavailable, otherwise
returns `user-files/{identityId}/{selectedFolder}`. -/
def listPath (identityId : Option String) (selectedFolder : String) :
    Except String String :=
  match identityId with
  | none => .error "User not authenticated"
  | some id => .ok ("user-files/" ++ id ++ "/" ++ selectedFolder)

/-- `loadFiles`: sets `loading`, clears `error`, lists the current folder and
replaces `files` with `result.items || []` on success; on any thrown error
(identity unavailable or store failure) sets `error` to
`'Failed to load files'` and leaves `files` untouched.  `loading` is reset in
the `finally` block either way.  The store result carries
`Option (List FileItem)` so that the `|| []` guard of the source is kept. -/
def loadFiles (identityId : Option String)
    (store : String → Except String (Option (List FileItem)))
    (s : DataRoomState) : DataRoomState :=
  match listPath identityId s.selectedFolder with
  | .error _ => { s with error := some "Failed to load files", loading := false }
  | .ok p =>
    match store p with
    | .error _ => { s with error := some "Failed to load files", loading := false }
    | .ok items =>
      { s with files := items.getD [], error := none, loading := false }

/-- `initialProgress` from `handleFileSelect`: one entry per selected file. -/
def initialProgress (names : List String) : List UploadProgress :=
  names.map fun n => { fileName := n, progress := 0, isUploading := true }

/-- `fileName = Date.now() + '-' + file.name` (the collision-avoidance
suffix). -/
def uploadFileName (now : Nat) (name : String) : String :=
  toString now ++ "-" ++ name

/-- `folderPath = selectedFolder ? selectedFolder + '/' : ''`. -/
def folderPathOf (selectedFolder : String) : String :=
  if selectedFolder = "" then "" else selectedFolder ++ "/"

/-- The `path` callback passed to `uploadData` for one file: throws when the
identity id is unavailable, otherwise returns
`user-files/{identityId}/{folderPath}{fileName}`. -/
def destPath (identityId : Option String) (selectedFolder : String) (now : Nat)
    (name : String) : Except String String :=
  match identityId with
  | none => .error "User not authenticated"
  | some id =>
    .ok ("user-files/" ++ id ++ "/" ++ folderPathOf selectedFolder ++
      uploadFileName now name)

/-- `Math.round((transferredBytes / totalBytes) * 100)` in exact integer
arithmetic: `⌊100 t / T + 1/2⌋ = (200 t + T) / (2 T)`. -/
def jsRound100 (transferred total : Nat) : Nat :=
  (200 * transferred + total) / (2 * total)

/-- The `onProgress` callback of task `index`: when `totalBytes` is absent or
`0` (falsy) nothing is updated; otherwise entry `index` of the task list gets
the rounded percentage. -/
def onProgress (index : Nat) (transferredBytes : Nat) (totalBytes : Option Nat)
    (l : List UploadProgress) : List UploadProgress :=
  match totalBytes with
  | none => l
  | some total =>
    if total = 0 then l
    else
      l.mapIdx fun i item =>
        if i = index then { item with progress := jsRound100 transferredBytes total }
        else item

/-- The success marking of `handleFileSelect`:
`prev.map((item, i) => i === index ? { ...item, isUploading: false, progress: 100 } : item)`. -/
def markCompletedAt (index : Nat) (l : List UploadProgress) : List UploadProgress :=
  l.mapIdx fun i item =>
    if i = index then { item with isUploading := false, progress := 100 }
    else item

/-- The failure marking of `handleFileSelect` (the per-file `catch`):
`prev.map((item, i) => i === index ? { ...item, isUploading: false, progress: 0 } : item)`. -/
def markFailedAt (index : Nat) (l : List UploadProgress) : List UploadProgress :=
  l.mapIdx fun i item =>
    if i = index then { item with isUploading := false, progress := 0 }
    else item

/-- Per-file outcome of one upload promise: `succeeded` is whether the promise
resolves, `putIssued` is whether a put reached the store (the path callback
throwing prevents it). -/
structure TaskRun where
  succeeded : Bool
  putIssued : Bool
deriving DecidableEq, Repr

/-- Runs one file's upload: the path callback is evaluated inside this file's
own `uploadData` call, so an unavailable identity fails this task alone (its
`catch` marks it failed and rethrows); when the path resolves, the put is
issued and `putOk` is the transport outcome. -/
def runTask (identityId : Option String) (selectedFolder : String) (now : Nat)
    (name : String) (putOk : Bool) : TaskRun :=
  match destPath identityId selectedFolder now name with
  | .error _ => { succeeded := false, putIssued := false }
  | .ok _ => { succeeded := putOk, putIssued := true }

/-- The resolution outcome of every task of a batch. -/
def taskOutcomes (identityId : Option String) (selectedFolder : String)
    (now : Nat) (names : List String) (putOk : List Bool) : List Bool :=
  List.zipWith (fun n ok => (runTask identityId selectedFolder now n ok).succeeded)
    names putOk

/-- How many puts of a batch reach the store. -/
def putsIssued (identityId : Option String) (selectedFolder : String)
    (now : Nat) (names : List String) (putOk : List Bool) : Nat :=
  (List.zipWith (fun n ok => (runTask identityId selectedFolder now n ok).putIssued)
    names putOk).count true

/-- The state update performed when task `i` settles: the success marking when
its promise resolved, the failure marking when it rejected. -/
def settleOne (outcomes : List Bool) (l : List UploadProgress) (i : Nat) :
    List UploadProgress :=
  if outcomes.getD i false then markCompletedAt i l else markFailedAt i l

/-- Folds the settle updates of a schedule (the task indices in settle order)
over the task list. -/
def runSettles (outcomes : List Bool) (start : List UploadProgress)
    (order : List Nat) : List UploadProgress :=
  order.foldl (settleOne outcomes) start

/-- The prefix of the schedule that has settled when `Promise.all` settles:
everything up to and including the first rejection, or the whole schedule when
no task rejects. -/
def firstFailureSettles (outcomes : List Bool) (order : List Nat) : List Nat :=
  match order.findIdx? (fun i => !(outcomes.getD i true)) with
  | some k => order.take (k + 1)
  | none => order

/-- The task list visible at the moment `await Promise.all` returns or throws. -/
def stateAtBatchSettle (outcomes : List Bool) (start : List UploadProgress)
    (order : List Nat) : List UploadProgress :=
  runSettles outcomes start (firstFailureSettles outcomes order)

/-- Outcome of the `try/catch` around `await Promise.all(uploadPromises)`. -/
structure BatchFinish where
  state : DataRoomState
  refreshTriggered : Bool
  clearScheduled : Bool
deriving Repr

/-- The completion code of `handleFileSelect`: when every promise resolved,
`setError(null)`, a delayed clear of the progress list is scheduled, and
`loadFiles` is awaited; when `Promise.all` rejects, only
`setError('Some files failed to upload')` runs — no refresh, no scheduled
clear. -/
def finishBatch (identityId : Option String)
    (store : String → Except String (Option (List FileItem)))
    (outcomes : List Bool) (s : DataRoomState) : BatchFinish :=
  if outcomes.all id then
    { state := loadFiles identityId store { s with error := none },
      refreshTriggered := true, clearScheduled := true }
  else
    { state := { s with error := some "Some files failed to upload" },
      refreshTriggered := false, clearScheduled := false }

/-- The delayed `setUploadProgress([])` scheduled on success. -/
def fireScheduledClear (s : DataRoomState) : DataRoomState :=
  { s with uploadProgress := [] }

/-- `setSelectedFolder` (folder scope selection). -/
def setScope (s : DataRoomState) (pfx : String) : DataRoomState :=
  { s with selectedFolder := pfx }

/-- The `useEffect` that re-runs `loadFiles` after the folder scope changes. -/
def setScopeAndRefresh (identityId : Option String)
    (store : String → Except String (Option (List FileItem)))
    (s : DataRoomState) (pfx : String) : DataRoomState :=
  loadFiles identityId store (setScope s pfx)

/-- A submitted batch: `handleFileSelect` closes over the `selectedFolder`
value of its render and the per-call `Date.now()`, so these are captured at
submission. -/
structure Batch where
  capturedFolder : String
  now : Nat
  names : List String
deriving DecidableEq, Repr

/-- Submitting a batch captures the current folder scope. -/
def submitBatch (s : DataRoomState) (now : Nat) (names : List String) : Batch :=
  { capturedFolder := s.selectedFolder, now := now, names := names }

/-- The destination paths a submitted batch uploads to. -/
def batchDestPaths (identityId : Option String) (b : Batch) :
    List (Except String String) :=
  b.names.map (destPath identityId b.capturedFolder b.now)

/-- The destination paths of a batch whose `Date.now()` calls all landed in
the same millisecond (the calls run back to back in one event-loop tick). -/
def batchDestPathsAt (identityId : Option String) (selectedFolder : String)
    (now : Nat) (names : List String) : List (Except String String) :=
  names.map (destPath identityId selectedFolder now)

/-- The terminal marking a settling task receives, as a function of its
outcome: the success marking for `true`, the failure marking for `false`. -/
def markOf (ok : Bool) (item : UploadProgress) : UploadProgress :=
  { item with isUploading := false, progress := if ok then 100 else 0 }

/-- The terminal record of a task named `n` with outcome `ok`. -/
def terminalTask (n : String) (ok : Bool) : UploadProgress :=
  { fileName := n, progress := if ok then 100 else 0, isUploading := false }

/-- A concrete component state used to instantiate theorems. -/
def demoState : DataRoomState :=
  { files := [], uploadProgress := [], loading := false, error := none,
    selectedFolder := "" }

/-- A concrete listing entry used to instantiate theorems. -/
def demoFile : FileItem :=
  { path := "user-files/user/report.pdf", size := some 2048,
    lastModified := none, eTag := none }

/-- A concrete store used to instantiate theorems: it only knows the
`invoices` folder of user `user`. -/
def demoStore : String → Except String (Option (List FileItem)) :=
  fun p =>
    if p = "user-files/user/invoices" then .ok (some [demoFile])
    else .error "not found"

/-- `sizes` array of `formatFileSize`. -/
def sizes : List String := ["B", "KB", "MB", "GB"]

/-- JavaScript array indexing inside a template literal: an out-of-range read
yields `undefined`, rendered as the string `"undefined"`. -/
def jsIndex (l : List String) (i : Nat) : String :=
  (l.get? i).getD "undefined"

/-- `(num / den).toFixed(1)` in exact arithmetic: the value rounded to tenths
(`⌊10 num / den + 1/2⌋` for the nonnegative values that occur here), printed
with one decimal digit. -/
def toFixed1 (num den : Nat) : String :=
  let tenths := (20 * num + den) / (2 * den)
  toString (tenths / 10) ++ "." ++ toString (tenths % 10)

/-- `formatFileSize`: falsy sizes (absent or `0`) give `'Unknown size'`;
otherwise `i = ⌊log bytes / log 1024⌋` (exactly `Nat.log 1024 bytes` for
positive integers) selects the unit, and the rendered string is
`(bytes / 1024^i).toFixed(1) + ' ' + sizes[i]`. -/
def formatFileSize (bytes : Option Nat) : String :=
  match bytes with
  | none => "Unknown size"
  | some b =>
    if b = 0 then "Unknown size"
    else
      toFixed1 b (1024 ^ Nat.log 1024 b) ++ " " ++ jsIndex sizes (Nat.log 1024 b)

/-! ## Helper lemmas -/

universe u v

theorem get?_mapIdx {α : Type u} {β : Type v} (l : List α) (f : Nat → α → β)
    (j : Nat) : (l.mapIdx f).get? j = (l.get? j).map (f j) := by
  rw [List.mapIdx_eq_enum_map, List.get?_map, List.get?_enum, Option.map_map]
  rfl

theorem markCompletedAt_get? (index : Nat) (l : List UploadProgress) (j : Nat) :
    (markCompletedAt index l).get? j =
      if j = index then
        (l.get? j).map fun item => { item with isUploading := false, progress := 100 }
      else l.get? j := by
  unfold markCompletedAt
  rw [get?_mapIdx]
  by_cases hj : j = index <;> simp [hj]

theorem markFailedAt_get? (index : Nat) (l : List UploadProgress) (j : Nat) :
    (markFailedAt index l).get? j =
      if j = index then
        (l.get? j).map fun item => { item with isUploading := false, progress := 0 }
      else l.get? j := by
  unfold markFailedAt
  rw [get?_mapIdx]
  by_cases hj : j = index <;> simp [hj]

theorem settleOne_get? (outcomes : List Bool) (l : List UploadProgress)
    (i j : Nat) :
    (settleOne outcomes l i).get? j =
      if j = i then (l.get? j).map (markOf (outcomes.getD i false))
      else l.get? j := by
  unfold settleOne
  cases h : outcomes.getD i false
  · rw [if_neg Bool.false_ne_true, markFailedAt_get?]
    by_cases hj : j = i
    · subst hj
      simp only [if_pos rfl]
      rfl
    · simp only [if_neg hj]
  · rw [if_pos rfl, markCompletedAt_get?]
    by_cases hj : j = i
    · subst hj
      simp only [if_pos rfl]
      rfl
    · simp only [if_neg hj]

theorem markOf_markOf (b c : Bool) (x : UploadProgress) :
    markOf b (markOf c x) = markOf b x := rfl

theorem runSettles_cons (outcomes : List Bool) (start : List UploadProgress)
    (a : Nat) (order : List Nat) :
    runSettles outcomes start (a :: order) =
      runSettles outcomes (settleOne outcomes start a) order := rfl

/-- The task visible at position `j` after a schedule has run: its own
terminal marking once some settle event for `j` has run, its initial value
otherwise.  Later events at other indices never touch it. -/
theorem runSettles_get? (outcomes : List Bool) (order : List Nat) :
    ∀ (start : List UploadProgress) (j : Nat),
      (runSettles outcomes start order).get? j =
        if j ∈ order then (start.get? j).map (markOf (outcomes.getD j false))
        else start.get? j := by
  induction order with
  | nil => intro start j; simp [runSettles]
  | cons a order ih =>
    intro start j
    rw [runSettles_cons, ih]
    by_cases hj : j ∈ order
    · have hmem : j ∈ a :: order := List.mem_cons_of_mem _ hj
      rw [if_pos hj, if_pos hmem, settleOne_get?]
      by_cases hja : j = a
      · subst hja
        rw [if_pos rfl, Option.map_map]
        have hcomp : markOf (outcomes.getD j false) ∘ markOf (outcomes.getD j false)
            = markOf (outcomes.getD j false) := funext fun x => markOf_markOf _ _ x
        rw [hcomp]
      · rw [if_neg hja]
    · by_cases hja : j = a
      · subst hja
        have hmem : j ∈ j :: order := List.mem_cons_self _ _
        rw [if_neg hj, if_pos hmem, settleOne_get?, if_pos rfl]
      · have hmem : j ∉ a :: order := by
          intro hc
          rcases List.mem_cons.mp hc with h | h
          · exact hja h
          · exact hj h
        rw [if_neg hj, if_neg hmem, settleOne_get?, if_neg hja]

theorem initialProgress_get? (names : List String) (j : Nat) :
    (initialProgress names).get? j =
      (names.get? j).map fun n =>
        { fileName := n, progress := 0, isUploading := true } := by
  unfold initialProgress
  rw [List.get?_map]

theorem markOf_initial (ok : Bool) (n : String) :
    markOf ok { fileName := n, progress := 0, isUploading := true } =
      terminalTask n ok := rfl

/-- Once every task of the batch has settled (any schedule covering every
index), the task list is exactly the per-task terminal states. -/
theorem runSettles_eq_zipWith (names : List String) (outcomes : List Bool)
    (order : List Nat) (hlen : outcomes.length = names.length)
    (hcover : ∀ i, i < names.length → i ∈ order) :
    runSettles outcomes (initialProgress names) order =
      List.zipWith terminalTask names outcomes := by
  apply List.ext_get?
  intro j
  rw [runSettles_get?, List.get?_zipWith']
  by_cases hjl : j < names.length
  · have hjo : j < outcomes.length := by omega
    have hgd : outcomes.getD j false = outcomes.get ⟨j, hjo⟩ := by
      simp [List.getD, List.getElem?_eq_getElem hjo]
    rw [if_pos (hcover j hjl), initialProgress_get?, List.get?_eq_get hjl,
      List.get?_eq_get hjo, hgd]
    simp [markOf_initial]
  · have h1 : names.get? j = none := List.get?_eq_none.mpr (by omega)
    have h2 : outcomes.get? j = none := List.get?_eq_none.mpr (by omega)
    rw [initialProgress_get?, h1, h2]
    simp

theorem zipWith_terminalTask_replicate (names : List String) (b : Bool) :
    List.zipWith terminalTask names (List.replicate names.length b) =
      names.map fun n => terminalTask n b := by
  induction names with
  | nil => rfl
  | cons n ns ih =>
    simp only [List.length_cons, List.replicate_succ, List.zipWith_cons_cons,
      List.map_cons, ih]

theorem runTask_some (id selectedFolder : String) (now : Nat) (name : String)
    (putOk : Bool) :
    runTask (some id) selectedFolder now name putOk =
      { succeeded := putOk, putIssued := true } := rfl

theorem runTask_none (selectedFolder : String) (now : Nat) (name : String)
    (putOk : Bool) :
    runTask none selectedFolder now name putOk =
      { succeeded := false, putIssued := false } := rfl

/-- With the identity available, a task's resolution outcome is exactly its
put's transport outcome. -/
theorem taskOutcomes_some (id selectedFolder : String) (now : Nat) :
    ∀ (names : List String) (putOk : List Bool),
      names.length = putOk.length →
      taskOutcomes (some id) selectedFolder now names putOk = putOk := by
  intro names
  induction names with
  | nil =>
    intro putOk hlen
    cases putOk with
    | nil => rfl
    | cons b bs => simp at hlen
  | cons n ns ih =>
    intro putOk hlen
    cases putOk with
    | nil => simp at hlen
    | cons b bs =>
      have hstep : taskOutcomes (some id) selectedFolder now (n :: ns) (b :: bs)
          = b :: taskOutcomes (some id) selectedFolder now ns bs := rfl
      rw [hstep, ih bs (by simpa using hlen)]

/-- With the identity unavailable, every task fails. -/
theorem taskOutcomes_none (selectedFolder : String) (now : Nat) :
    ∀ (names : List String) (putOk : List Bool),
      names.length = putOk.length →
      taskOutcomes none selectedFolder now names putOk =
        List.replicate names.length false := by
  intro names
  induction names with
  | nil =>
    intro putOk hlen
    cases putOk with
    | nil => rfl
    | cons b bs => simp at hlen
  | cons n ns ih =>
    intro putOk hlen
    cases putOk with
    | nil => simp at hlen
    | cons b bs =>
      have hstep : taskOutcomes none selectedFolder now (n :: ns) (b :: bs)
          = false :: taskOutcomes none selectedFolder now ns bs := rfl
      rw [hstep, ih bs (by simpa using hlen)]
      rfl

/-- With the identity unavailable, no put reaches the store. -/
theorem putsIssued_none (selectedFolder : String) (now : Nat) :
    ∀ (names : List String) (putOk : List Bool),
      putsIssued none selectedFolder now names putOk = 0 := by
  intro names
  induction names with
  | nil => intro putOk; cases putOk <;> rfl
  | cons n ns ih =>
    intro putOk
    cases putOk with
    | nil => rfl
    | cons b bs =>
      have ihb := ih bs
      unfold putsIssued at ihb ⊢
      have hstep : List.zipWith
          (fun name ok => (runTask none selectedFolder now name ok).putIssued)
          (n :: ns) (b :: bs) =
          false :: List.zipWith
          (fun name ok => (runTask none selectedFolder now name ok).putIssued)
          ns bs := rfl
      rw [hstep, List.count_cons, ihb]
      simp

theorem countP_failed_zipWith (names : List String) (outcomes : List Bool)
    (hlen : names.length = outcomes.length) :
    (List.zipWith terminalTask names outcomes).countP
      (fun t => !t.isUploading && t.progress == 0) = outcomes.count false := by
  induction names generalizing outcomes with
  | nil =>
    cases outcomes with
    | nil => rfl
    | cons b bs => simp at hlen
  | cons n ns ih =>
    cases outcomes with
    | nil => simp at hlen
    | cons b bs =>
      rw [List.zipWith_cons_cons, List.countP_cons, List.count_cons,
        ih bs (by simpa using hlen)]
      cases b <;> simp [terminalTask]

theorem jsRound100_le (transferred total : Nat) (hle : transferred ≤ total)
    (h0 : total ≠ 0) : jsRound100 transferred total ≤ 100 := by
  unfold jsRound100
  have h1 : 200 * transferred + total ≤ total + 2 * total * 100 := by omega
  calc (200 * transferred + total) / (2 * total)
      ≤ (total + 2 * total * 100) / (2 * total) := Nat.div_le_div_right h1
    _ = total / (2 * total) + 100 := Nat.add_mul_div_left total 100 (by omega)
    _ = 100 := by rw [Nat.div_eq_of_lt (by omega)]

theorem string_append_left_cancel (s t u : String) (h : s ++ t = s ++ u) :
    t = u := by
  have hd := congrArg String.data h
  simp only [String.data_append] at hd
  exact String.ext (List.append_cancel_left hd)

theorem uploadFileName_inj (now : Nat) (a b : String)
    (h : uploadFileName now a = uploadFileName now b) : a = b := by
  unfold uploadFileName at h
  exact string_append_left_cancel _ _ _ h

theorem destPath_some_inj (id selectedFolder : String) (now : Nat)
    (a b : String)
    (h : destPath (some id) selectedFolder now a =
      destPath (some id) selectedFolder now b) : a = b := by
  simp only [destPath, Except.ok.injEq] at h
  exact uploadFileName_inj now a b (string_append_left_cancel _ _ _ h)

/-- `loadFiles` never touches the task-progress list, whatever the listing
outcome. -/
theorem loadFiles_uploadProgress (identityId : Option String)
    (store : String → Except String (Option (List FileItem)))
    (s : DataRoomState) :
    (loadFiles identityId store s).uploadProgress = s.uploadProgress := by
  unfold loadFiles
  split
  · rfl
  · split <;> rfl

theorem jsIndex_mem_sizes_iff (i : Nat) : jsIndex sizes i ∈ sizes ↔ i < 4 := by
  constructor
  · intro h
    by_contra h4
    have hnone : sizes.get? i = none :=
      List.get?_eq_none.mpr (Nat.le_of_not_lt h4)
    rw [jsIndex, hnone] at h
    exact absurd h (by decide)
  · intro h
    interval_cases i <;> decide

/-! ## Claim theorems -/

/-- Claim C4: a refresh that fails — because the identity token is
unavailable or because the store call errors — leaves the previously
published file set unchanged (if a prior successful refresh published M
files, they are all still there) and only sets the error message; `loadFiles`
never clears the read model on error. -/
theorem c4_refresh_error_preserves (identityId : Option String)
    (store : String → Except String (Option (List FileItem)))
    (s : DataRoomState)
    (h : (∃ msg, listPath identityId s.selectedFolder = .error msg) ∨
      (∃ p e, listPath identityId s.selectedFolder = .ok p ∧
        store p = .error e)) :
    (loadFiles identityId store s).files = s.files ∧
    (loadFiles identityId store s).error = some "Failed to load files" := by
  rcases h with ⟨msg, hm⟩ | ⟨p, e, hp, he⟩
  · simp [loadFiles, hm]
  · simp [loadFiles, hp, he]

/-- Witness for C4: a state already showing one file keeps it across a
refresh whose identity token is unavailable. -/
theorem c4_witness :
    (loadFiles none (fun _ => Except.error "boom")
      { demoState with files := [demoFile] }).files = [demoFile] ∧
    (loadFiles none (fun _ => Except.error "boom")
      { demoState with files := [demoFile] }).error =
      some "Failed to load files" :=
  c4_refresh_error_preserves none (fun _ => Except.error "boom")
    { demoState with files := [demoFile] }
    (Or.inl ⟨"User not authenticated", rfl⟩)

/-- Claim C5: for a batch in which every put succeeds (identity available,
every transport outcome `true`), once every task has settled — under any
settle order covering all indices — the task list holds exactly N tasks,
each completed (`isUploading = false`) with `progress = 100`. -/
theorem c5_all_success (id selectedFolder : String) (now : Nat)
    (names : List String) (putOk : List Bool) (order : List Nat)
    (hlen : names.length = putOk.length)
    (hok : ∀ b ∈ putOk, b = true)
    (hcover : ∀ i, i < names.length → i ∈ order) :
    runSettles (taskOutcomes (some id) selectedFolder now names putOk)
        (initialProgress names) order =
      names.map (fun n =>
        { fileName := n, progress := 100, isUploading := false }) ∧
    (runSettles (taskOutcomes (some id) selectedFolder now names putOk)
        (initialProgress names) order).length = names.length := by
  have hput : putOk = List.replicate putOk.length true :=
    List.eq_replicate_of_mem hok
  have houtc : taskOutcomes (some id) selectedFolder now names putOk = putOk :=
    taskOutcomes_some id selectedFolder now names putOk hlen
  have hmain : runSettles (taskOutcomes (some id) selectedFolder now names putOk)
      (initialProgress names) order =
      names.map fun n => { fileName := n, progress := 100, isUploading := false } := by
    rw [houtc, runSettles_eq_zipWith names putOk order hlen.symm hcover]
    rw [hput, ← hlen, zipWith_terminalTask_replicate]
    rfl
  refine ⟨hmain, ?_⟩
  rw [hmain, List.length_map]

/-- Witness for C5: two files, both puts succeed, settle order `[1, 0]`. -/
theorem c5_witness :
    runSettles (taskOutcomes (some "user") "" 0 ["a.txt", "b.txt"] [true, true])
        (initialProgress ["a.txt", "b.txt"]) [1, 0] =
      [{ fileName := "a.txt", progress := 100, isUploading := false },
       { fileName := "b.txt", progress := 100, isUploading := false }] ∧
    (runSettles (taskOutcomes (some "user") "" 0 ["a.txt", "b.txt"] [true, true])
        (initialProgress ["a.txt", "b.txt"]) [1, 0]).length = 2 :=
  c5_all_success "user" "" 0 ["a.txt", "b.txt"] [true, true] [1, 0]
    rfl (by decide) (by decide)

/-- Claim C6: when the put of task `i` fails, the failure marking sets that
task to `isUploading = false` with `progress` reset to `0`, leaves every
sibling entry unchanged, and does not change the number of tasks. -/
theorem c6_failure_isolation (l : List UploadProgress) (i j : Nat)
    (hij : j ≠ i) :
    (markFailedAt i l).get? i =
      (l.get? i).map (fun item =>
        { item with isUploading := false, progress := 0 }) ∧
    (markFailedAt i l).get? j = l.get? j ∧
    (markFailedAt i l).length = l.length := by
  refine ⟨?_, ?_, ?_⟩
  · rw [markFailedAt_get?, if_pos rfl]
  · rw [markFailedAt_get?, if_neg hij]
  · unfold markFailedAt
    simp

/-- Witness for C6: in a two-task batch, failing task 1 resets its progress
to 0 and leaves task 0 (50% uploaded) untouched. -/
theorem c6_witness :
    (markFailedAt 1
        [{ fileName := "a.txt", progress := 50, isUploading := true },
         { fileName := "b.txt", progress := 30, isUploading := true }]).get? 1 =
      some { fileName := "b.txt", progress := 0, isUploading := false } ∧
    (markFailedAt 1
        [{ fileName := "a.txt", progress := 50, isUploading := true },
         { fileName := "b.txt", progress := 30, isUploading := true }]).get? 0 =
      some { fileName := "a.txt", progress := 50, isUploading := true } ∧
    (markFailedAt 1
        [{ fileName := "a.txt", progress := 50, isUploading := true },
         { fileName := "b.txt", progress := 30, isUploading := true }]).length = 2 :=
  c6_failure_isolation
    [{ fileName := "a.txt", progress := 50, isUploading := true },
     { fileName := "b.txt", progress := 30, isUploading := true }] 1 0
    (by decide)

/-- Claim C9: a progress delivery with `totalBytes` absent or `0` leaves the
task list unchanged (the division is guarded by the falsy check); with a
positive total and `transferred ≤ total` the indexed task's progress becomes
`round(100 * transferred / total)`, every other entry is untouched, and the
computed percentage is a well-defined natural number at most 100. -/
theorem c9_progress_guard (l : List UploadProgress)
    (index transferred total : Nat) (h0 : total ≠ 0)
    (hle : transferred ≤ total) :
    onProgress index transferred none l = l ∧
    onProgress index transferred (some 0) l = l ∧
    (onProgress index transferred (some total) l).get? index =
      (l.get? index).map (fun item =>
        { item with progress := jsRound100 transferred total }) ∧
    (∀ j, j ≠ index →
      (onProgress index transferred (some total) l).get? j = l.get? j) ∧
    jsRound100 transferred total ≤ 100 := by
  refine ⟨rfl, rfl, ?_, ?_, jsRound100_le transferred total hle h0⟩
  · simp only [onProgress]
    rw [if_neg h0, get?_mapIdx]
    simp
  · intro j hj
    simp only [onProgress]
    rw [if_neg h0, get?_mapIdx]
    simp [hj]

/-- Witness for C9: one task at 10%; a `none`-total delivery changes nothing,
a delivery of 1 of 2 bytes sets it to 50, and 50 ≤ 100. -/
theorem c9_witness :
    onProgress 0 1 none [{ fileName := "a.txt", progress := 10, isUploading := true }] =
      [{ fileName := "a.txt", progress := 10, isUploading := true }] ∧
    onProgress 0 1 (some 0) [{ fileName := "a.txt", progress := 10, isUploading := true }] =
      [{ fileName := "a.txt", progress := 10, isUploading := true }] ∧
    (onProgress 0 1 (some 2)
        [{ fileName := "a.txt", progress := 10, isUploading := true }]).get? 0 =
      some { fileName := "a.txt", progress := jsRound100 1 2, isUploading := true } ∧
    (∀ j, j ≠ 0 → (onProgress 0 1 (some 2)
        [{ fileName := "a.txt", progress := 10, isUploading := true }]).get? j =
      ([{ fileName := "a.txt", progress := 10, isUploading := true }] :
        List UploadProgress).get? j) ∧
    jsRound100 1 2 ≤ 100 :=
  c9_progress_guard [{ fileName := "a.txt", progress := 10, isUploading := true }]
    0 1 2 (by decide) (by decide)

/-- Claim C10: `formatFileSize` returns `"Unknown size"` exactly for an
absent or zero size, and the unit index `⌊log_1024 bytes⌋` selects a defined
suffix (`B`, `KB`, `MB`, `GB`) precisely when `1 ≤ bytes < 1024^4`; at
`1024^4` and beyond the lookup falls off the array (JavaScript renders
`undefined`). -/
theorem c10_format_file_size :
    formatFileSize none = "Unknown size" ∧
    formatFileSize (some 0) = "Unknown size" ∧
    ∀ b : Nat, 1 ≤ b →
      (formatFileSize (some b) =
        toFixed1 b (1024 ^ Nat.log 1024 b) ++ " " ++
          jsIndex sizes (Nat.log 1024 b) ∧
      (jsIndex sizes (Nat.log 1024 b) ∈ sizes ↔ b < 1024 ^ 4)) := by
  refine ⟨rfl, rfl, ?_⟩
  intro b hb
  constructor
  · simp only [formatFileSize]
    rw [if_neg (show ¬b = 0 by omega)]
  · have hlog : b < 1024 ^ 4 ↔ Nat.log 1024 b < 4 :=
      Nat.lt_pow_iff_log_lt (by norm_num) (by omega)
    exact (jsIndex_mem_sizes_iff (Nat.log 1024 b)).trans hlog.symm

/-- Witness for C10: 2048 bytes renders with a defined suffix (`KB`), and
2048 is below `1024^4`. -/
theorem c10_witness :
    (formatFileSize (some 2048) =
      toFixed1 2048 (1024 ^ Nat.log 1024 2048) ++ " " ++
        jsIndex sizes (Nat.log 1024 2048) ∧
    (jsIndex sizes (Nat.log 1024 2048) ∈ sizes ↔ 2048 < 1024 ^ 4)) :=
  c10_format_file_size.2.2 2048 (by omega)

/-- Claim C1 (counterexample): with two files where the second put fails and
settles first, `Promise.all` rejects after only that task settled: at the
moment batch completion is observed, task `a.txt` is still uploading (not
terminal), so completion is not observed "only after all N tasks reach a
terminal state"; and the surfaced batch result is the fixed string
`'Some files failed to upload'`, which carries no failed file names. -/
theorem c1_counterexample :
    firstFailureSettles [true, false] [1, 0] = [1] ∧
    stateAtBatchSettle [true, false] (initialProgress ["a.txt", "b.txt"]) [1, 0] =
      [{ fileName := "a.txt", progress := 0, isUploading := true },
       { fileName := "b.txt", progress := 0, isUploading := false }] ∧
    (∃ t ∈ stateAtBatchSettle [true, false]
        (initialProgress ["a.txt", "b.txt"]) [1, 0], t.isUploading = true) ∧
    (finishBatch (some "user") demoStore [true, false] demoState).state.error =
      some "Some files failed to upload" := by
  refine ⟨rfl, rfl, ?_, rfl⟩
  refine ⟨{ fileName := "a.txt", progress := 0, isUploading := true }, ?_, rfl⟩
  rw [show stateAtBatchSettle [true, false]
      (initialProgress ["a.txt", "b.txt"]) [1, 0] =
      [{ fileName := "a.txt", progress := 0, isUploading := true },
       { fileName := "b.txt", progress := 0, isUploading := false }] from rfl]
  exact List.mem_cons_self _ _

/-- Claim C1 (amended): in a batch where K of N puts fail (identity
available), every task still eventually reaches its own terminal state — the
K failed tasks end `Failed` with progress 0 and the other N−K end
`Completed` with progress 100, for any settle order covering all tasks — and
the number of failed entries is exactly K; but batch failure is surfaced as
the fixed generic error `'Some files failed to upload'` (no file names, no
refresh), and `Promise.all` observes it at the first failing settle, not
after all tasks are terminal. -/
theorem c1_amended_batch_failure (tok selectedFolder : String) (now : Nat)
    (names : List String) (putOk : List Bool) (order : List Nat)
    (s : DataRoomState)
    (store : String → Except String (Option (List FileItem)))
    (hlen : names.length = putOk.length)
    (hcover : ∀ i, i < names.length → i ∈ order)
    (hfail : false ∈ putOk) :
    runSettles (taskOutcomes (some tok) selectedFolder now names putOk)
        (initialProgress names) order =
      List.zipWith terminalTask names putOk ∧
    (List.zipWith terminalTask names putOk).countP
        (fun t => !t.isUploading && t.progress == 0) = putOk.count false ∧
    (finishBatch (some tok) store
        (taskOutcomes (some tok) selectedFolder now names putOk) s).state.error =
      some "Some files failed to upload" ∧
    (finishBatch (some tok) store
        (taskOutcomes (some tok) selectedFolder now names putOk) s).refreshTriggered
      = false := by
  have houtc := taskOutcomes_some tok selectedFolder now names putOk hlen
  have hall : putOk.all id = false :=
    List.all_eq_false.mpr ⟨false, hfail, by simp⟩
  have hfb : finishBatch (some tok) store putOk s =
      { state := { s with error := some "Some files failed to upload" },
        refreshTriggered := false, clearScheduled := false } := by
    unfold finishBatch
    rw [hall, if_neg Bool.false_ne_true]
  refine ⟨?_, countP_failed_zipWith names putOk hlen, ?_, ?_⟩
  · rw [houtc]
    exact runSettles_eq_zipWith names putOk order hlen.symm hcover
  · rw [houtc, hfb]
  · rw [houtc, hfb]

/-- Witness for the amended C1: two files, the second put fails; both end
terminal (one completed, one failed), the failed count is 1, and the batch
error is the generic message. -/
theorem c1_witness :
    runSettles (taskOutcomes (some "user") "" 0 ["a.txt", "b.txt"] [true, false])
        (initialProgress ["a.txt", "b.txt"]) [0, 1] =
      [{ fileName := "a.txt", progress := 100, isUploading := false },
       { fileName := "b.txt", progress := 0, isUploading := false }] ∧
    (List.zipWith terminalTask ["a.txt", "b.txt"] [true, false]).countP
        (fun t => !t.isUploading && t.progress == 0) = 1 ∧
    (finishBatch (some "user") demoStore
        (taskOutcomes (some "user") "" 0 ["a.txt", "b.txt"] [true, false])
        demoState).state.error = some "Some files failed to upload" ∧
    (finishBatch (some "user") demoStore
        (taskOutcomes (some "user") "" 0 ["a.txt", "b.txt"] [true, false])
        demoState).refreshTriggered = false :=
  c1_amended_batch_failure "user" "" 0 ["a.txt", "b.txt"] [true, false]
    [0, 1] demoState demoStore rfl (by decide) (by decide)

/-- Claim C2 (counterexample): two files sharing the original name `a.txt`
and the same `Date.now()` millisecond (the synchronous prefixes of the map
callbacks run back to back in one tick) get identical destination paths —
the timestamp suffix does not guarantee uniqueness within a batch. -/
theorem c2_counterexample :
    (batchDestPathsAt (some "user") "" 1727000000000 ["a.txt", "a.txt"]).get? 0 =
      (batchDestPathsAt (some "user") "" 1727000000000 ["a.txt", "a.txt"]).get? 1 ∧
    ¬ (batchDestPathsAt (some "user") "" 1727000000000
        ["a.txt", "a.txt"]).Pairwise (· ≠ ·) := by
  refine ⟨rfl, ?_⟩
  intro h
  simp only [batchDestPathsAt, List.map_cons, List.map_nil] at h
  rcases List.pairwise_cons.mp h with ⟨h1, _⟩
  exact h1 _ (List.mem_cons_self _ _) rfl

/-- Claim C2 (amended): within a single tick (one shared `Date.now()`
value), the synthesized destination paths are pairwise distinct provided the
original file names are pairwise distinct; for files with identical original
names the paths collide unless their timestamps happen to differ, which
nothing guarantees. -/
theorem c2_amended_distinct_names (id selectedFolder : String) (now : Nat)
    (names : List String) (hnames : names.Pairwise (· ≠ ·)) :
    (batchDestPathsAt (some id) selectedFolder now names).Pairwise (· ≠ ·) := by
  unfold batchDestPathsAt
  refine List.Pairwise.map _ ?_ hnames
  intro a b hab heq
  exact hab (destPath_some_inj id selectedFolder now a b heq)

/-- Witness for the amended C2: two distinct names in one tick give two
distinct destination paths. -/
theorem c2_witness :
    (batchDestPathsAt (some "user") "" 1727000000000
      ["a.txt", "b.txt"]).Pairwise (· ≠ ·) :=
  c2_amended_distinct_names "user" "" 1727000000000 ["a.txt", "b.txt"]
    (by simp)

/-- Claim C3 (counterexample): with the identity token unavailable, the
single whole-batch abort the claim describes does not happen.  No put
reaches the store (that much holds), but each task is individually driven
through the per-file failure path — both tasks end `Failed` with progress 0,
which a batch aborted before per-file processing would not show — and the
surfaced error is the same generic `'Some files failed to upload'` as any
partially failed batch, not a distinct auth error. -/
theorem c3_counterexample :
    putsIssued none "" 0 ["a.txt", "b.txt"] [true, true] = 0 ∧
    runSettles (taskOutcomes none "" 0 ["a.txt", "b.txt"] [true, true])
        (initialProgress ["a.txt", "b.txt"]) [0, 1] =
      [{ fileName := "a.txt", progress := 0, isUploading := false },
       { fileName := "b.txt", progress := 0, isUploading := false }] ∧
    runSettles (taskOutcomes none "" 0 ["a.txt", "b.txt"] [true, true])
        (initialProgress ["a.txt", "b.txt"]) [0, 1] ≠
      initialProgress ["a.txt", "b.txt"] ∧
    (finishBatch none demoStore
        (taskOutcomes none "" 0 ["a.txt", "b.txt"] [true, true])
        demoState).state.error = some "Some files failed to upload" := by
  refine ⟨rfl, rfl, ?_, rfl⟩
  decide

/-- Claim C3 (amended): when the identity token is unavailable, zero puts
reach the store — each `uploadData`'s path callback throws before contacting
it — but the batch is not aborted as a single AuthRequired error issued
before per-file processing: every task individually fails through its own
catch (terminal `Failed` state, progress 0), and the batch surfaces the
same generic upload error as any other failed batch. -/
theorem c3_amended_no_identity (selectedFolder : String) (now : Nat)
    (names : List String) (putOk : List Bool) (order : List Nat)
    (s : DataRoomState)
    (store : String → Except String (Option (List FileItem)))
    (hlen : names.length = putOk.length)
    (hcover : ∀ i, i < names.length → i ∈ order)
    (hne : names ≠ []) :
    putsIssued none selectedFolder now names putOk = 0 ∧
    runSettles (taskOutcomes none selectedFolder now names putOk)
        (initialProgress names) order =
      names.map (fun n =>
        { fileName := n, progress := 0, isUploading := false }) ∧
    (finishBatch none store (taskOutcomes none selectedFolder now names putOk)
        s).state.error = some "Some files failed to upload" := by
  have houtc := taskOutcomes_none selectedFolder now names putOk hlen
  have hlen0 : names.length ≠ 0 := fun h => hne (List.length_eq_zero.mp h)
  have hfalse : false ∈ List.replicate names.length false :=
    List.mem_replicate.mpr ⟨hlen0, rfl⟩
  have hall : (List.replicate names.length false).all id = false :=
    List.all_eq_false.mpr ⟨false, hfalse, by simp⟩
  have hfb : finishBatch none store (List.replicate names.length false) s =
      { state := { s with error := some "Some files failed to upload" },
        refreshTriggered := false, clearScheduled := false } := by
    unfold finishBatch
    rw [hall, if_neg Bool.false_ne_true]
  refine ⟨putsIssued_none selectedFolder now names putOk, ?_, ?_⟩
  · rw [houtc, runSettles_eq_zipWith names _ order (by simp) hcover,
      zipWith_terminalTask_replicate]
    rfl
  · rw [houtc, hfb]

/-- Witness for the amended C3: one file, no identity: zero puts, the task
ends failed, the error is the generic message. -/
theorem c3_witness :
    putsIssued none "docs" 5 ["a.txt"] [true] = 0 ∧
    runSettles (taskOutcomes none "docs" 5 ["a.txt"] [true])
        (initialProgress ["a.txt"]) [0] =
      [{ fileName := "a.txt", progress := 0, isUploading := false }] ∧
    (finishBatch none demoStore (taskOutcomes none "docs" 5 ["a.txt"] [true])
        demoState).state.error = some "Some files failed to upload" :=
  c3_amended_no_identity "docs" 5 ["a.txt"] [true] [0] demoState demoStore
    rfl (by decide) (by decide)

/-- Claim C7 (counterexample): batch completion does not trigger the refresh
and the delayed clear "regardless of individual outcomes": with one failing
task, the refresh is not triggered (the very same store turns `files` into
`[demoFile]` when the batch succeeds), no clear is scheduled, and only the
error message is set. -/
theorem c7_counterexample :
    (finishBatch (some "user") (fun _ => Except.ok (some [demoFile])) [false]
      demoState).refreshTriggered = false ∧
    (finishBatch (some "user") (fun _ => Except.ok (some [demoFile])) [false]
      demoState).clearScheduled = false ∧
    (finishBatch (some "user") (fun _ => Except.ok (some [demoFile])) [false]
      demoState).state.files = [] ∧
    (finishBatch (some "user") (fun _ => Except.ok (some [demoFile])) [true]
      demoState).state.files = [demoFile] ∧
    (finishBatch (some "user") (fun _ => Except.ok (some [demoFile])) [false]
      demoState).state.error = some "Some files failed to upload" :=
  ⟨rfl, rfl, rfl, rfl, rfl⟩

/-- Claim C7 (amended): the listing refresh and the delayed clearing of the
progress entries happen exactly when every task of the batch succeeded; when
any task failed, `Promise.all` rejects and the completion code only sets the
batch error — no refresh, no scheduled clear, files and task list left as
they were. -/
theorem c7_amended (identityId : Option String)
    (store : String → Except String (Option (List FileItem)))
    (outcomes : List Bool) (s : DataRoomState) :
    (outcomes.all id = true →
      (finishBatch identityId store outcomes s).refreshTriggered = true ∧
      (finishBatch identityId store outcomes s).clearScheduled = true ∧
      (finishBatch identityId store outcomes s).state =
        loadFiles identityId store { s with error := none } ∧
      (fireScheduledClear
        (finishBatch identityId store outcomes s).state).uploadProgress = []) ∧
    (outcomes.all id = false →
      (finishBatch identityId store outcomes s).refreshTriggered = false ∧
      (finishBatch identityId store outcomes s).clearScheduled = false ∧
      (finishBatch identityId store outcomes s).state.files = s.files ∧
      (finishBatch identityId store outcomes s).state.uploadProgress =
        s.uploadProgress ∧
      (finishBatch identityId store outcomes s).state.error =
        some "Some files failed to upload") := by
  constructor
  · intro h
    have hfb : finishBatch identityId store outcomes s =
        { state := loadFiles identityId store { s with error := none },
          refreshTriggered := true, clearScheduled := true } := by
      unfold finishBatch
      rw [h, if_pos rfl]
    rw [hfb]
    exact ⟨rfl, rfl, rfl, rfl⟩
  · intro h
    have hfb : finishBatch identityId store outcomes s =
        { state := { s with error := some "Some files failed to upload" },
          refreshTriggered := false, clearScheduled := false } := by
      unfold finishBatch
      rw [h, if_neg Bool.false_ne_true]
    rw [hfb]
    exact ⟨rfl, rfl, rfl, rfl, rfl⟩

/-- Witness for the amended C7: an all-success batch triggers the refresh
and schedules the clear; a batch with one failure does neither. -/
theorem c7_witness :
    ((finishBatch (some "user") demoStore [true, true]
        demoState).refreshTriggered = true ∧
      (finishBatch (some "user") demoStore [true, true]
        demoState).clearScheduled = true ∧
      (finishBatch (some "user") demoStore [true, true] demoState).state =
        loadFiles (some "user") demoStore { demoState with error := none } ∧
      (fireScheduledClear (finishBatch (some "user") demoStore [true, true]
        demoState).state).uploadProgress = []) ∧
    ((finishBatch (some "user") demoStore [true, false]
        demoState).refreshTriggered = false ∧
      (finishBatch (some "user") demoStore [true, false]
        demoState).clearScheduled = false ∧
      (finishBatch (some "user") demoStore [true, false] demoState).state.files
        = [] ∧
      (finishBatch (some "user") demoStore [true, false]
        demoState).state.uploadProgress = [] ∧
      (finishBatch (some "user") demoStore [true, false] demoState).state.error
        = some "Some files failed to upload") :=
  ⟨(c7_amended (some "user") demoStore [true, true] demoState).1 rfl,
   (c7_amended (some "user") demoStore [true, false] demoState).2 rfl⟩

/-- Claim C8: `setScope` replaces the active folder, its `useEffect` refresh
lists under the new prefix, and neither touches the in-flight task list nor
a previously submitted batch: the batch's destination paths are computed
from the folder captured at submission, while a batch submitted after the
change captures the new folder. -/
theorem c8_scope_change (identityId : Option String)
    (store : String → Except String (Option (List FileItem)))
    (s : DataRoomState) (pfx : String) (now : Nat) (names : List String) :
    (setScope s pfx).selectedFolder = pfx ∧
    (setScopeAndRefresh identityId store s pfx).uploadProgress =
      s.uploadProgress ∧
    (submitBatch s now names).capturedFolder = s.selectedFolder ∧
    (submitBatch (setScope s pfx) now names).capturedFolder = pfx ∧
    batchDestPaths identityId (submitBatch s now names) =
      batchDestPathsAt identityId s.selectedFolder now names ∧
    (∀ id items, identityId = some id →
      store ("user-files/" ++ id ++ "/" ++ pfx) = .ok items →
      (setScopeAndRefresh identityId store s pfx).files = items.getD []) := by
  refine ⟨rfl, ?_, rfl, rfl, rfl, ?_⟩
  · exact loadFiles_uploadProgress identityId store (setScope s pfx)
  · intro id items hid hstore
    subst hid
    simp [setScopeAndRefresh, loadFiles, setScope, listPath, hstore]

/-- Witness for C8: switching `demoState` to the `invoices` folder refreshes
from the store under the new prefix, leaves the (empty) task list alone, and
a batch submitted beforehand keeps the root folder it captured. -/
theorem c8_witness :
    (setScopeAndRefresh (some "user") demoStore demoState "invoices").files =
      [demoFile] ∧
    (setScopeAndRefresh (some "user") demoStore demoState
      "invoices").uploadProgress = [] ∧
    batchDestPaths (some "user") (submitBatch demoState 7 ["a.txt"]) =
      batchDestPathsAt (some "user") "" 7 ["a.txt"] :=
  ⟨(c8_scope_change (some "user") demoStore demoState "invoices" 7
      ["a.txt"]).2.2.2.2.2 "user" (some [demoFile]) rfl rfl,
   (c8_scope_change (some "user") demoStore demoState "invoices" 7
      ["a.txt"]).2.1,
   (c8_scope_change (some "user") demoStore demoState "invoices" 7
      ["a.txt"]).2.2.2.2.1⟩

end DataRoom
